import Mathlib

/-!
Verification of the OAuth2/PKCE login flow and token lifecycle of the
Gitlab-CLI repository.  The Go sources are embedded shallowly: external
effects (environment variables, the hosts.json file, HTTP calls, the
refresh endpoint) become explicit parameters, machine integers become
Int/Nat, and fallible calls return Except.
-/

/-- Modelled from the spec: the per-host credential record (HostRecord, spec
section 3).  The fields token, user, protocol, apiHost, authMethod, clientID
and redirectURI are translated from the HostConfig struct in
internal/config/config.go; the token-lifecycle fields refreshToken,
tokenExpiresAt, tokenCreatedAt and oauthScopes belong to the current revision
of that struct, which is absent from the available sources but is required by
internal/config/config_test.go and internal/auth/auth_test.go and is described
by the spec. -/
structure HostConfig where
  token : String
  user : String
  protocol : String
  apiHost : String
  authMethod : String
  clientID : String
  redirectURI : String
  refreshToken : String
  tokenExpiresAt : Int
  tokenCreatedAt : Int
  oauthScopes : String
deriving DecidableEq, Repr

/-- HostsConfig maps hostnames to their configurations (Go map modelled as an
association list). -/
abbrev HostsConfig := List (String × HostConfig)

/-- The two token environment variables consulted by config.TokenForHost.
Go os.Getenv returns "" for an unset variable, so each is a plain String. -/
structure Env where
  gitlabToken : String
  glabToken : String
deriving DecidableEq, Repr

/-- config.TokenForHost: environment variables first, then the stored record.
The result of config.LoadHosts is passed in as loadResult. -/
def TokenForHost (env : Env) (loadResult : Except String HostsConfig)
    (host : String) : String × String :=
  if env.gitlabToken ≠ "" then (env.gitlabToken, "GITLAB_TOKEN")
  else if env.glabToken ≠ "" then (env.glabToken, "GLAB_TOKEN")
  else
    match loadResult with
    | .error _ => ("", "")
    | .ok hosts =>
      match hosts.lookup host with
      | some hc => (hc.token, host)
      | none => ("", "")

/-- config.AuthMethodForHost. -/
def AuthMethodForHost (loadResult : Except String HostsConfig)
    (host : String) : String :=
  match loadResult with
  | .error _ => ""
  | .ok hosts =>
    match hosts.lookup host with
    | some hc => hc.authMethod
    | none => ""

/-- api.refreshOAuthTokenIfNeeded: returns the refreshed token on success, or
the original token on any failure.  now is time.Now().Unix(); the outcome of
auth.RefreshOAuthToken is passed in as refreshResult. -/
def refreshOAuthTokenIfNeeded (loadResult : Except String HostsConfig)
    (host currentToken : String) (now : Int)
    (refreshResult : Except String String) : String :=
  match loadResult with
  | .error _ => currentToken
  | .ok hosts =>
    match hosts.lookup host with
    | none => currentToken
    | some hc =>
      if hc.tokenExpiresAt = 0 then currentToken
      else if now < hc.tokenExpiresAt - 300 then currentToken
      else
        match refreshResult with
        | .error _ => currentToken
        | .ok newToken => newToken

/-- The token-resolution core of api.NewClient: resolve the token, fail when
empty, refresh only when the stored auth method is "oauth". -/
def NewClientToken (env : Env) (loadResult : Except String HostsConfig)
    (host : String) (now : Int)
    (refreshResult : Except String String) : Except String String :=
  let token := (TokenForHost env loadResult host).1
  if token = "" then
    .error ("not authenticated with " ++ host ++ "; run \x27glab auth login --hostname " ++ host ++ "\x27")
  else if AuthMethodForHost loadResult host = "oauth" then
    .ok (refreshOAuthTokenIfNeeded loadResult host token now refreshResult)
  else
    .ok token

/-- auth.GetToken. -/
def GetToken (env : Env) (loadResult : Except String HostsConfig)
    (host : String) : Except String String :=
  let token := (TokenForHost env loadResult host).1
  if token = "" then
    .error ("no token found for " ++ host ++ "; run \x27glab auth login --hostname " ++ host ++ "\x27 to authenticate")
  else
    .ok token

/-- One incoming request on the OAuth callback route; each field is the result
of r.URL.Query().Get on the corresponding parameter ("" when absent). -/
structure CallbackRequest where
  state : String
  error : String
  errorDescription : String
  code : String
deriving DecidableEq, Repr

/-- What the handler registered by auth.waitForCallback sends for one request:
either the authorization code (codeCh) or an error (errCh). -/
inductive CallbackOutcome where
  | code (c : String)
  | failure (msg : String)
deriving DecidableEq, Repr

/-- The request handler inside auth.waitForCallback: state check first, then
the provider error parameter, then the code parameter. -/
def handleCallback (expectedState : String) (r : CallbackRequest) : CallbackOutcome :=
  if r.state ≠ expectedState then
    .failure "state mismatch: possible CSRF attack"
  else if r.error ≠ "" then
    .failure ("authorization denied: " ++ r.error ++ " - " ++ r.errorDescription)
  else if r.code = "" then
    .failure "no authorization code received"
  else
    .code r.code

/-- auth.waitForCallback reduced to the single accepted request: the select
returns the code from codeCh or the error from errCh. -/
def waitForCallback (expectedState : String) (r : CallbackRequest) : Except String String :=
  match handleCallback expectedState r with
  | .code c => .ok c
  | .failure e => .error e

/-- auth.OAuthTokenResponse: the JSON shape of the token endpoint response. -/
structure OAuthTokenResponse where
  accessToken : String
  tokenType : String
  expiresIn : Int
  refreshToken : String
  scope : String
  createdAt : Int
deriving DecidableEq, Repr

/-- auth.exchangeCode: httpResult is the outcome of http.PostForm (status code
and body on success); parse is json.Unmarshal into OAuthTokenResponse.  The
status test in the source is StatusCode != http.StatusOK, i.e. exactly 200. -/
def exchangeCode (parse : String → Except String OAuthTokenResponse)
    (httpResult : Except String (Nat × String)) : Except String OAuthTokenResponse :=
  match httpResult with
  | .error e => .error ("requesting token: " ++ e)
  | .ok (status, body) =>
    if status ≠ 200 then
      .error ("token exchange failed (HTTP " ++ toString status ++ "): " ++ body)
    else
      match parse body with
      | .error pe => .error ("parsing token response: " ++ pe)
      | .ok tokenResp => .ok tokenResp

/-- Truncation to a 32-bit word, the implicit wrap-around of Go uint32. -/
def w32 (n : Nat) : Nat := n % 4294967296

/-- 32-bit rotate right. -/
def rotr32 (n x : Nat) : Nat := w32 ((x >>> n) ||| (x <<< (32 - n)))

/-- SHA-256 big Sigma-0. -/
def bsig0 (x : Nat) : Nat := (rotr32 2 x) ^^^ (rotr32 13 x) ^^^ (rotr32 22 x)

/-- SHA-256 big Sigma-1. -/
def bsig1 (x : Nat) : Nat := (rotr32 6 x) ^^^ (rotr32 11 x) ^^^ (rotr32 25 x)

/-- SHA-256 small sigma-0. -/
def ssig0 (x : Nat) : Nat := (rotr32 7 x) ^^^ (rotr32 18 x) ^^^ (x >>> 3)

/-- SHA-256 small sigma-1. -/
def ssig1 (x : Nat) : Nat := (rotr32 17 x) ^^^ (rotr32 19 x) ^^^ (x >>> 10)

/-- The SHA-256 round constants. -/
def sha256K : List Nat :=
  [1116352408, 1899447441, 3049323471, 3921009573, 961987163, 1508970993,
   2453635748, 2870763221, 3624381080, 310598401, 607225278, 1426881987,
   1925078388, 2162078206, 2614888103, 3248222580, 3835390401, 4022224774,
   264347078, 604807628, 770255983, 1249150122, 1555081692, 1996064986,
   2554220882, 2821834349, 2952996808, 3210313671, 3336571891, 3584528711,
   113926993, 338241895, 666307205, 773529912, 1294757372, 1396182291,
   1695183700, 1986661051, 2177026350, 2456956037, 2730485921, 2820302411,
   3259730800, 3345764771, 3516065817, 3600352804, 4094571909, 275423344,
   430227734, 506948616, 659060556, 883997877, 958139571, 1322822218,
   1537002063, 1747873779, 1955562222, 2024104815, 2227730452, 2361852424,
   2428436474, 2756734187, 3204031479, 3329325298]

/-- The SHA-256 initial hash state. -/
def sha256H0 : List Nat :=
  [1779033703, 3144134277, 1013904242, 2773480762, 1359893119,
   2600822924, 528734635, 1541459225]

/-- Big-endian bytes of a 32-bit word. -/
def be32 (n : Nat) : List Nat := [(n >>> 24) % 256, (n >>> 16) % 256, (n >>> 8) % 256, n % 256]

/-- Big-endian bytes of a 64-bit word. -/
def be64 (n : Nat) : List Nat :=
  [(n >>> 56) % 256, (n >>> 48) % 256, (n >>> 40) % 256, (n >>> 32) % 256,
   (n >>> 24) % 256, (n >>> 16) % 256, (n >>> 8) % 256, n % 256]

/-- SHA-256 message padding: 0x80, zeros to 56 mod 64, then the bit length. -/
def sha256pad (msg : List Nat) : List Nat :=
  msg ++ [0x80] ++ List.replicate ((119 - (msg.length % 64)) % 64) 0 ++ be64 (msg.length * 8)

/-- Big-endian 32-bit words of a byte list. -/
def bytesToWords : List Nat → List Nat
  | b0 :: b1 :: b2 :: b3 :: rest =>
    (b0 * 16777216 + b1 * 65536 + b2 * 256 + b3) :: bytesToWords rest
  | _ => []

/-- Split a byte list into 64-byte chunks. -/
def chunkify (l : List Nat) : List (List Nat) :=
  match l with
  | [] => []
  | a :: rest => ((a :: rest).take 64) :: chunkify ((a :: rest).drop 64)
termination_by l.length
decreasing_by simp; omega

/-- Extend the 16-word message schedule by the given number of words. -/
def extendSchedule : Nat → Array Nat → Array Nat
  | 0, w => w
  | n + 1, w =>
    let t := w.size
    let nw := w32 (ssig1 (w.getD (t - 2) 0) + w.getD (t - 7) 0 +
                   ssig0 (w.getD (t - 15) 0) + w.getD (t - 16) 0)
    extendSchedule n (w.push nw)

/-- One SHA-256 compression round on the 8-word working state. -/
def sha256Round (st : List Nat) (kw : Nat × Nat) : List Nat :=
  match st with
  | [a, b, c, d, e, f, g, h] =>
    let t1 := w32 (h + bsig1 e + ((e &&& f) ^^^ ((e ^^^ 4294967295) &&& g)) + kw.1 + kw.2)
    let t2 := w32 (bsig0 a + ((a &&& b) ^^^ (a &&& c) ^^^ (b &&& c)))
    [w32 (t1 + t2), a, b, c, w32 (d + t1), e, f, g]
  | other => other

/-- Process one 64-byte chunk of the padded message. -/
def processChunk (st : List Nat) (chunk : List Nat) : List Nat :=
  let w := extendSchedule 48 (Array.mk (bytesToWords chunk))
  let st2 := (sha256K.zip w.toList).foldl sha256Round st
  (st.zip st2).map (fun p => w32 (p.1 + p.2))

/-- SHA-256 of a byte list (crypto/sha256 Sum256), as 32 bytes.  Checked
against the standard test vectors for "", "abc" and the two-chunk
"abcdbcde..." message. -/
def sha256 (msg : List Nat) : List Nat :=
  (((chunkify (sha256pad msg)).foldl processChunk sha256H0).map be32).flatten

/-- The URL-safe base64 alphabet of encoding/base64 (RawURLEncoding). -/
def b64Alphabet : List Char :=
  "ABCDEFGHIJKLMNOPQRSTUVWXYZabcdefghijklmnopqrstuvwxyz0123456789-_".data

/-- Character for a 6-bit value under the URL-safe base64 alphabet. -/
def b64Char (n : Nat) : Char := b64Alphabet.getD n 'A'

/-- base64.RawURLEncoding.EncodeToString: unpadded URL-safe base64. -/
def base64RawURLEncodeList : List Nat → List Char
  | b0 :: b1 :: b2 :: rest =>
    b64Char (b0 / 4) :: b64Char ((b0 % 4) * 16 + b1 / 16) ::
    b64Char ((b1 % 16) * 4 + b2 / 64) :: b64Char (b2 % 64) :: base64RawURLEncodeList rest
  | [b0, b1] => [b64Char (b0 / 4), b64Char ((b0 % 4) * 16 + b1 / 16), b64Char ((b1 % 16) * 4)]
  | [b0] => [b64Char (b0 / 4), b64Char ((b0 % 4) * 16)]
  | [] => []

/-- Bytes of an ASCII string (Go []byte conversion; the base64 alphabet is
pure ASCII, where UTF-8 bytes and code points coincide). -/
def strBytes (s : String) : List Nat := s.data.map Char.toNat

/-- auth.generateCodeVerifier: the 32 bytes delivered by crypto/rand are the
parameter buf; the verifier is their unpadded URL-safe base64 encoding. -/
def generateCodeVerifier (buf : List Nat) : String :=
  String.mk (base64RawURLEncodeList buf)

/-- auth.generateCodeChallenge: unpadded URL-safe base64 of the SHA-256 hash
of the verifier string. -/
def generateCodeChallenge (verifier : String) : String :=
  String.mk (base64RawURLEncodeList (sha256 (strBytes verifier)))

/-- Modelled from the spec: the merge step of the Token Refresher (spec
section 4.4): the new access token, refresh token and recomputed
tokenCreatedAt/tokenExpiresAt (createdAt + expiresIn, spec section 4.3)
replace the old ones; every other field of the record is kept. -/
def mergeRefreshedToken (hc : HostConfig) (resp : OAuthTokenResponse) : HostConfig :=
  { hc with
    token := resp.accessToken
    refreshToken := resp.refreshToken
    tokenCreatedAt := resp.createdAt
    tokenExpiresAt := resp.createdAt + resp.expiresIn }

/-- Go map assignment hosts[host] = hc on the association list. -/
def setHost (hosts : HostsConfig) (host : String) (hc : HostConfig) : HostsConfig :=
  match hosts with
  | [] => [(host, hc)]
  | (k, v) :: rest => if k = host then (k, hc) :: rest else (k, v) :: setHost rest host hc

/-- Modelled from the spec: auth.RefreshOAuthToken (the Token Refresher, spec
section 4.4), whose defining file is absent from the available sources; its
behavior is also pinned by internal/auth/auth_test.go.  It requires a stored
record with a non-empty refresh token, posts to the token endpoint (outcome
passed in as httpResult), fails on a non-success status or unparsable body,
and on success merges the new token fields into the stored record and returns
the new access token together with the updated hosts map. -/
def RefreshOAuthToken (loadResult : Except String HostsConfig) (host : String)
    (httpResult : Except String (Nat × String))
    (parse : String → Except String OAuthTokenResponse) :
    Except String (String × HostsConfig) :=
  match loadResult with
  | .error e => .error ("loading hosts config: " ++ e)
  | .ok hosts =>
    match hosts.lookup host with
    | none => .error ("no configuration for host: " ++ host)
    | some hc =>
      if hc.refreshToken = "" then
        .error ("no refresh token stored for " ++ host ++ "; run \x27glab auth login\x27 to re-authenticate")
      else
        match httpResult with
        | .error e => .error ("requesting token refresh: " ++ e)
        | .ok (status, body) =>
          if status ≠ 200 then
            .error ("token refresh failed (HTTP " ++ toString status ++ "): " ++ body)
          else
            match parse body with
            | .error pe => .error ("parsing token refresh response: " ++ pe)
            | .ok resp => .ok (resp.accessToken, setHost hosts host (mergeRefreshedToken hc resp))

/-- JSON values occurring in a serialized HostConfig. -/
inductive JValue where
  | str (s : String)
  | num (n : Int)
deriving DecidableEq, Repr

/-- A JSON object as an association list of fields. -/
abbrev JObject := List (String × JValue)

/-- A string field with the omitempty tag: absent when the value is "". -/
def optStrField (k v : String) : JObject := if v = "" then [] else [(k, .str v)]

/-- An integer field with the omitempty tag: absent when the value is 0. -/
def optIntField (k : String) (v : Int) : JObject := if v = 0 then [] else [(k, .num v)]

/-- Serialization of one HostConfig record per its JSON struct tags: token is
always present, every other field carries omitempty (keys as in config.go and
its tests: user, protocol, api_host, auth_method, client_id, redirect_uri,
refresh_token, token_expires_at, token_created_at, oauth_scopes). -/
def HostConfig.toJSON (hc : HostConfig) : JObject :=
  [("token", JValue.str hc.token)] ++
  optStrField "user" hc.user ++
  optStrField "protocol" hc.protocol ++
  optStrField "api_host" hc.apiHost ++
  optStrField "auth_method" hc.authMethod ++
  optStrField "client_id" hc.clientID ++
  optStrField "redirect_uri" hc.redirectURI ++
  optStrField "refresh_token" hc.refreshToken ++
  optIntField "token_expires_at" hc.tokenExpiresAt ++
  optIntField "token_created_at" hc.tokenCreatedAt ++
  optStrField "oauth_scopes" hc.oauthScopes

/-- String field access of json.Unmarshal: "" for an absent field. -/
def lookupStr (o : JObject) (k : String) : String :=
  match o.lookup k with
  | some (.str s) => s
  | _ => ""

/-- Integer field access of json.Unmarshal: 0 for an absent field. -/
def lookupInt (o : JObject) (k : String) : Int :=
  match o.lookup k with
  | some (.num n) => n
  | _ => 0

/-- Deserialization of one HostConfig record (json.Unmarshal): absent fields
keep their zero values. -/
def HostConfig.ofJSON (o : JObject) : HostConfig :=
  { token := lookupStr o "token"
    user := lookupStr o "user"
    protocol := lookupStr o "protocol"
    apiHost := lookupStr o "api_host"
    authMethod := lookupStr o "auth_method"
    clientID := lookupStr o "client_id"
    redirectURI := lookupStr o "redirect_uri"
    refreshToken := lookupStr o "refresh_token"
    tokenExpiresAt := lookupInt o "token_expires_at"
    tokenCreatedAt := lookupInt o "token_created_at"
    oauthScopes := lookupStr o "oauth_scopes" }

/-- config.SaveHosts at the JSON object level: each record is serialized per
its struct tags (json.MarshalIndent). -/
def SaveHosts (hosts : HostsConfig) : List (String × JObject) :=
  hosts.map (fun p => (p.1, p.2.toJSON))

/-- config.LoadHosts at the JSON object level: each serialized record is
decoded back (json.Unmarshal). -/
def LoadHosts (doc : List (String × JObject)) : HostsConfig :=
  doc.map (fun p => (p.1, HostConfig.ofJSON p.2))

/-- A concrete token endpoint response used by witnesses. -/
def sampleTokenResponse : OAuthTokenResponse :=
  { accessToken := "new-access-token"
    tokenType := "bearer"
    expiresIn := 7200
    refreshToken := "new-refresh-token"
    scope := "api"
    createdAt := 1700000000 }

/-- A concrete oauth host record used by witnesses. -/
def sampleOAuthRecord : HostConfig :=
  { token := "old-access-token"
    user := "alice"
    protocol := "https"
    apiHost := ""
    authMethod := "oauth"
    clientID := "my-client-id"
    redirectURI := "http://localhost:7171/auth/redirect"
    refreshToken := "old-refresh-token"
    tokenExpiresAt := 1700000000
    tokenCreatedAt := 1699992800
    oauthScopes := "api read_user" }

/-- A concrete static-token host record used by witnesses. -/
def samplePatRecord : HostConfig :=
  { token := "glpat-token"
    user := "bob"
    protocol := ""
    apiHost := ""
    authMethod := "pat"
    clientID := ""
    redirectURI := ""
    refreshToken := ""
    tokenExpiresAt := 0
    tokenCreatedAt := 0
    oauthScopes := "" }

/-- Every character emitted by the base64 encoder is in the URL-safe alphabet
or the default 'A'; none of these is the padding character. -/
theorem b64Char_ne_pad (n : Nat) : b64Char n ≠ '=' := by
  have h : b64Char n ∈ b64Alphabet ∨ b64Char n = 'A' := by
    unfold b64Char
    rcases Nat.lt_or_ge n b64Alphabet.length with h | h
    · left
      rw [List.getD_eq_getElem _ _ h]
      exact List.getElem_mem h
    · right
      exact List.getD_eq_default _ _ h
  rcases h with h | h
  · intro hc
    rw [hc] at h
    revert h
    decide
  · rw [h]
    decide

/-- Unpadded URL-safe base64 output never contains the padding character. -/
theorem b64_no_pad : ∀ l : List Nat, '=' ∉ base64RawURLEncodeList l
  | _ :: _ :: _ :: rest => by
    have ih := b64_no_pad rest
    simp only [base64RawURLEncodeList, List.mem_cons, not_or]
    exact ⟨Ne.symm (b64Char_ne_pad _), Ne.symm (b64Char_ne_pad _),
           Ne.symm (b64Char_ne_pad _), Ne.symm (b64Char_ne_pad _), ih⟩
  | [_, _] => by
    simp only [base64RawURLEncodeList, List.mem_cons, not_or, List.not_mem_nil, and_true]
    exact ⟨Ne.symm (b64Char_ne_pad _), Ne.symm (b64Char_ne_pad _), Ne.symm (b64Char_ne_pad _),
           not_false⟩
  | [_] => by
    simp only [base64RawURLEncodeList, List.mem_cons, not_or, List.not_mem_nil, and_true]
    exact ⟨Ne.symm (b64Char_ne_pad _), Ne.symm (b64Char_ne_pad _), not_false⟩
  | [] => by simp [base64RawURLEncodeList]

/-- C1: for every (codeVerifier, codeChallenge) pair produced by a login
attempt's PKCE generation (the verifier from 32 random bytes buf), the
challenge is the unpadded URL-safe base64 encoding of the SHA-256 hash of the
verifier, and the verifier is the unpadded URL-safe base64 encoding of the 32
random bytes; neither contains a padding character. -/
theorem pkce_verifier_challenge_spec (buf : List Nat) (h : buf.length = 32) :
    generateCodeChallenge (generateCodeVerifier buf) =
      String.mk (base64RawURLEncodeList (sha256 (strBytes (generateCodeVerifier buf)))) ∧
    generateCodeVerifier buf = String.mk (base64RawURLEncodeList buf) ∧
    '=' ∉ (generateCodeChallenge (generateCodeVerifier buf)).data ∧
    '=' ∉ (generateCodeVerifier buf).data := by
  refine ⟨rfl, rfl, ?_, ?_⟩
  · exact b64_no_pad _
  · exact b64_no_pad _

/-- Witness for C1 at a concrete 32-byte buffer. -/
theorem pkce_verifier_challenge_spec_witness :
    (List.replicate 32 0).length = 32 ∧
    (generateCodeChallenge (generateCodeVerifier (List.replicate 32 0)) =
      String.mk (base64RawURLEncodeList (sha256 (strBytes (generateCodeVerifier (List.replicate 32 0))))) ∧
     generateCodeVerifier (List.replicate 32 0) = String.mk (base64RawURLEncodeList (List.replicate 32 0)) ∧
     '=' ∉ (generateCodeChallenge (generateCodeVerifier (List.replicate 32 0))).data ∧
     '=' ∉ (generateCodeVerifier (List.replicate 32 0)).data) :=
  ⟨by decide, pkce_verifier_challenge_spec (List.replicate 32 0) (by decide)⟩

/-- C2: a callback request whose state query parameter differs from the
expected state never yields an authorization code; the flow aborts with the
CSRF state-mismatch error. -/
theorem callback_state_mismatch_aborts (expectedState : String) (r : CallbackRequest)
    (h : r.state ≠ expectedState) :
    waitForCallback expectedState r = .error "state mismatch: possible CSRF attack" := by
  simp [waitForCallback, handleCallback, h]

/-- Witness for C2 at a concrete forged request. -/
theorem callback_state_mismatch_aborts_witness :
    (CallbackRequest.mk "forged" "" "" "somecode").state ≠ "expected" ∧
    waitForCallback "expected" (CallbackRequest.mk "forged" "" "" "somecode") =
      .error "state mismatch: possible CSRF attack" :=
  ⟨by decide, callback_state_mismatch_aborts "expected" _ (by decide)⟩

/-- C9: on a state-matching callback, an error query parameter fails the flow
with an authorization-denied error carrying the provider description, and a
callback with neither an error nor a code fails with the
no-authorization-code protocol error. -/
theorem callback_denied_and_missing_code_errors (expectedState : String) (r : CallbackRequest)
    (hstate : r.state = expectedState) :
    (r.error ≠ "" →
      waitForCallback expectedState r =
        .error ("authorization denied: " ++ r.error ++ " - " ++ r.errorDescription)) ∧
    (r.error = "" → r.code = "" →
      waitForCallback expectedState r = .error "no authorization code received") := by
  constructor
  · intro herr
    simp [waitForCallback, handleCallback, hstate, herr]
  · intro herr hcode
    simp [waitForCallback, handleCallback, hstate, herr, hcode]

/-- Witness for C9 at a concrete denied request. -/
theorem callback_denied_and_missing_code_errors_witness :
    (CallbackRequest.mk "s" "access_denied" "user denied" "").state = "s" ∧
    ((CallbackRequest.mk "s" "access_denied" "user denied" "").error ≠ "" →
      waitForCallback "s" (CallbackRequest.mk "s" "access_denied" "user denied" "") =
        .error ("authorization denied: " ++ "access_denied" ++ " - " ++ "user denied")) :=
  ⟨rfl, (callback_denied_and_missing_code_errors "s" _ rfl).1⟩

/-- C10: when GITLAB_TOKEN (or, failing that, GLAB_TOKEN) is set, token
resolution returns the environment value with the environment source,
ignoring the stored hosts entirely, and GetToken succeeds. -/
theorem env_token_overrides_store (env : Env) (host : String)
    (loadResult loadResult2 : Except String HostsConfig)
    (h : env.gitlabToken ≠ "" ∨ env.glabToken ≠ "") :
    TokenForHost env loadResult host =
      (if env.gitlabToken = "" then (env.glabToken, "GLAB_TOKEN")
       else (env.gitlabToken, "GITLAB_TOKEN")) ∧
    TokenForHost env loadResult host = TokenForHost env loadResult2 host ∧
    GetToken env loadResult host =
      .ok (if env.gitlabToken = "" then env.glabToken else env.gitlabToken) := by
  by_cases h1 : env.gitlabToken = ""
  · have h2 : env.glabToken ≠ "" := by
      rcases h with h | h
      · exact absurd h1 h
      · exact h
    refine ⟨?_, ?_, ?_⟩ <;> simp [TokenForHost, GetToken, h1, h2]
  · refine ⟨?_, ?_, ?_⟩ <;> simp [TokenForHost, GetToken, h1]

/-- Witness for C10 at a concrete environment and missing hosts file. -/
theorem env_token_overrides_store_witness :
    ((Env.mk "env-token" "").gitlabToken ≠ "" ∨ (Env.mk "env-token" "").glabToken ≠ "") ∧
    (TokenForHost (Env.mk "env-token" "") (.error "no hosts file") "gitlab.com" =
      (if (Env.mk "env-token" "").gitlabToken = "" then ((Env.mk "env-token" "").glabToken, "GLAB_TOKEN")
       else ((Env.mk "env-token" "").gitlabToken, "GITLAB_TOKEN")) ∧
     TokenForHost (Env.mk "env-token" "") (.error "no hosts file") "gitlab.com" =
       TokenForHost (Env.mk "env-token" "") (.ok []) "gitlab.com" ∧
     GetToken (Env.mk "env-token" "") (.error "no hosts file") "gitlab.com" =
       .ok (if (Env.mk "env-token" "").gitlabToken = "" then (Env.mk "env-token" "").glabToken
            else (Env.mk "env-token" "").gitlabToken)) :=
  ⟨Or.inl (by decide),
   env_token_overrides_store (Env.mk "env-token" "") "gitlab.com" (.error "no hosts file") (.ok [])
     (Or.inl (by decide))⟩

/-- C3: for an oauth host record inside the expiry window, a failed refresh
makes the session resolver fall back to the current (possibly expired) stored
token instead of returning an error. -/
theorem refresh_failure_falls_back_to_current_token
    (env : Env) (hosts : HostsConfig) (host : String) (hc : HostConfig) (now : Int) (e : String)
    (henv1 : env.gitlabToken = "") (henv2 : env.glabToken = "")
    (hlk : hosts.lookup host = some hc)
    (hm : hc.authMethod = "oauth")
    (hne : hc.tokenExpiresAt ≠ 0)
    (hwin : hc.tokenExpiresAt - 300 ≤ now)
    (htok : hc.token ≠ "") :
    refreshOAuthTokenIfNeeded (.ok hosts) host hc.token now (.error e) = hc.token ∧
    NewClientToken env (.ok hosts) host now (.error e) = .ok hc.token := by
  have hr : refreshOAuthTokenIfNeeded (.ok hosts) host hc.token now (.error e) = hc.token := by
    simp [refreshOAuthTokenIfNeeded, hlk, hne]
  refine ⟨hr, ?_⟩
  have htov : TokenForHost env (.ok hosts) host = (hc.token, host) := by
    simp [TokenForHost, henv1, henv2, hlk]
  have ham : AuthMethodForHost (.ok hosts) host = "oauth" := by
    simp [AuthMethodForHost, hlk, hm]
  simp [NewClientToken, htov, ham, htok, hr]

/-- Witness for C3 at a concrete expired oauth record and a failing refresh. -/
theorem refresh_failure_falls_back_to_current_token_witness :
    ((Env.mk "" "").gitlabToken = "" ∧ (Env.mk "" "").glabToken = "" ∧
     ([("gitlab.test.local", sampleOAuthRecord)] : HostsConfig).lookup "gitlab.test.local" =
       some sampleOAuthRecord ∧
     sampleOAuthRecord.authMethod = "oauth" ∧
     sampleOAuthRecord.tokenExpiresAt ≠ 0 ∧
     sampleOAuthRecord.tokenExpiresAt - 300 ≤ 1700009999 ∧
     sampleOAuthRecord.token ≠ "") ∧
    (refreshOAuthTokenIfNeeded (.ok [("gitlab.test.local", sampleOAuthRecord)]) "gitlab.test.local"
        sampleOAuthRecord.token 1700009999 (.error "mock: connection refused") =
      sampleOAuthRecord.token ∧
     NewClientToken (Env.mk "" "") (.ok [("gitlab.test.local", sampleOAuthRecord)])
        "gitlab.test.local" 1700009999 (.error "mock: connection refused") =
      .ok sampleOAuthRecord.token) :=
  ⟨⟨rfl, rfl, by decide, by decide, by decide, by decide, by decide⟩,
   refresh_failure_falls_back_to_current_token (Env.mk "" "") _ "gitlab.test.local"
     sampleOAuthRecord 1700009999 "mock: connection refused" rfl rfl (by decide) (by decide)
     (by decide) (by decide) (by decide)⟩

/-- C4: with an unset expiry or an expiry more than 300 seconds away, the
session resolver returns the current token unchanged whatever the refresher
would have answered, so resolving twice inside the buffer issues no refresh
call and yields the same token. -/
theorem fresh_token_resolution_idempotent_no_refresh
    (hosts : HostsConfig) (host currentToken : String) (now : Int) (hc : HostConfig)
    (hlk : hosts.lookup host = some hc)
    (hm : hc.authMethod = "oauth")
    (h : hc.tokenExpiresAt = 0 ∨ now < hc.tokenExpiresAt - 300) :
    (∀ refreshResult,
      refreshOAuthTokenIfNeeded (.ok hosts) host currentToken now refreshResult = currentToken) ∧
    (∀ r1 r2,
      refreshOAuthTokenIfNeeded (.ok hosts) host currentToken now r1 =
        refreshOAuthTokenIfNeeded (.ok hosts) host currentToken now r2) := by
  have h1 : ∀ refreshResult,
      refreshOAuthTokenIfNeeded (.ok hosts) host currentToken now refreshResult = currentToken := by
    intro refreshResult
    rcases h with h0 | hlt
    · simp [refreshOAuthTokenIfNeeded, hlk, h0]
    · simp [refreshOAuthTokenIfNeeded, hlk, hlt]
  exact ⟨h1, fun r1 r2 => by rw [h1 r1, h1 r2]⟩

/-- Witness for C4 at a concrete fresh oauth record. -/
theorem fresh_token_resolution_idempotent_no_refresh_witness :
    (([("gitlab.test.local", sampleOAuthRecord)] : HostsConfig).lookup "gitlab.test.local" =
       some sampleOAuthRecord ∧
     sampleOAuthRecord.authMethod = "oauth" ∧
     (sampleOAuthRecord.tokenExpiresAt = 0 ∨
       (1699990000 : Int) < sampleOAuthRecord.tokenExpiresAt - 300)) ∧
    ((∀ refreshResult,
       refreshOAuthTokenIfNeeded (.ok [("gitlab.test.local", sampleOAuthRecord)])
         "gitlab.test.local" "current-token" 1699990000 refreshResult = "current-token") ∧
     (∀ r1 r2,
       refreshOAuthTokenIfNeeded (.ok [("gitlab.test.local", sampleOAuthRecord)])
         "gitlab.test.local" "current-token" 1699990000 r1 =
       refreshOAuthTokenIfNeeded (.ok [("gitlab.test.local", sampleOAuthRecord)])
         "gitlab.test.local" "current-token" 1699990000 r2)) :=
  ⟨⟨by decide, by decide, Or.inr (by decide)⟩,
   fresh_token_resolution_idempotent_no_refresh _ "gitlab.test.local" "current-token" 1699990000
     sampleOAuthRecord (by decide) (by decide) (Or.inr (by decide))⟩

/-- C5: a host record whose auth method is not oauth resolves to its stored
token unchanged, for every possible refresher outcome — the record is never
passed to the token refresher. -/
theorem static_token_record_never_refreshed
    (env : Env) (hosts : HostsConfig) (host : String) (hc : HostConfig) (now : Int)
    (henv1 : env.gitlabToken = "") (henv2 : env.glabToken = "")
    (hlk : hosts.lookup host = some hc)
    (hm : hc.authMethod ≠ "oauth") (htok : hc.token ≠ "") :
    ∀ refreshResult,
      NewClientToken env (.ok hosts) host now refreshResult = .ok hc.token := by
  intro refreshResult
  have hth : TokenForHost env (.ok hosts) host = (hc.token, host) := by
    simp [TokenForHost, henv1, henv2, hlk]
  have ham : AuthMethodForHost (.ok hosts) host = hc.authMethod := by
    simp [AuthMethodForHost, hlk]
  simp [NewClientToken, hth, ham, htok, hm]

/-- Witness for C5 at a concrete static-token record with zero expiry. -/
theorem static_token_record_never_refreshed_witness :
    ((Env.mk "" "").gitlabToken = "" ∧ (Env.mk "" "").glabToken = "" ∧
     ([("gitlab.com", samplePatRecord)] : HostsConfig).lookup "gitlab.com" =
       some samplePatRecord ∧
     samplePatRecord.authMethod ≠ "oauth" ∧ samplePatRecord.token ≠ "") ∧
    (∀ refreshResult,
      NewClientToken (Env.mk "" "") (.ok [("gitlab.com", samplePatRecord)]) "gitlab.com"
        1900000000 refreshResult = .ok samplePatRecord.token) :=
  ⟨⟨rfl, rfl, by decide, by decide, by decide⟩,
   static_token_record_never_refreshed (Env.mk "" "") _ "gitlab.com" samplePatRecord 1900000000
     rfl rfl (by decide) (by decide) (by decide)⟩

/-- Counterexample for C6: the exchange rejects the 2xx status 201 even with a
perfectly parsable body, because the source tests for status 200 exactly; the
claim says a 2xx response with a well-formed body returns a token. -/
theorem exchange_code_2xx_counterexample :
    exchangeCode (fun _ => .ok sampleTokenResponse) (.ok (201, "tokenbody")) =
      .error ("token exchange failed (HTTP " ++ toString (201 : Nat) ++ "): " ++ "tokenbody") :=
  rfl

/-- C6 (amended): a non-200 status yields the token-exchange-failed error with
status and body; a 200 response with an unparsable body yields the
parsing-token-response error; a 200 response with a well-formed body returns
the parsed token. -/
theorem exchange_code_status_and_parse_errors
    (parse : String → Except String OAuthTokenResponse) (status : Nat) (body : String) :
    (status ≠ 200 → exchangeCode parse (.ok (status, body)) =
        .error ("token exchange failed (HTTP " ++ toString status ++ "): " ++ body)) ∧
    (status = 200 → ∀ pe, parse body = .error pe →
        exchangeCode parse (.ok (status, body)) =
          .error ("parsing token response: " ++ pe)) ∧
    (status = 200 → ∀ t, parse body = .ok t →
        exchangeCode parse (.ok (status, body)) = .ok t) := by
  refine ⟨?_, ?_, ?_⟩
  · intro h
    simp [exchangeCode, h]
  · intro h pe hpe
    simp [exchangeCode, h, hpe]
  · intro h t ht
    simp [exchangeCode, h, ht]

/-- Witness for the amended C6 at a concrete 500 response. -/
theorem exchange_code_status_and_parse_errors_witness :
    (500 : Nat) ≠ 200 ∧
    exchangeCode (fun _ => .ok sampleTokenResponse) (.ok (500, "server error")) =
      .error ("token exchange failed (HTTP " ++ toString (500 : Nat) ++ "): " ++ "server error") :=
  ⟨by decide,
   (exchange_code_status_and_parse_errors (fun _ => .ok sampleTokenResponse) 500 "server error").1
     (by decide)⟩

/-- Go map assignment makes the assigned key map to the assigned record. -/
theorem lookup_setHost (hosts : HostsConfig) (host : String) (hc : HostConfig) :
    (setHost hosts host hc).lookup host = some hc := by
  induction hosts with
  | nil => simp [setHost, List.lookup]
  | cons p rest ih =>
    obtain ⟨k, v⟩ := p
    by_cases h : k = host
    · simp [setHost, h, List.lookup]
    · have h2 : (host == k) = false := beq_eq_false_iff_ne.mpr (Ne.symm h)
      simp [setHost, h, List.lookup, h2, ih]

/-- C7: a successful token refresh stores a record in which only the access
token, refresh token, tokenCreatedAt and tokenExpiresAt are replaced; the
username, client id, redirect URI, scopes and auth method of the stored
record are preserved unchanged. -/
theorem refresh_merge_preserves_non_token_fields
    (hosts : HostsConfig) (host : String) (hc : HostConfig)
    (parse : String → Except String OAuthTokenResponse) (body : String) (resp : OAuthTokenResponse)
    (hlk : hosts.lookup host = some hc) (hrt : hc.refreshToken ≠ "")
    (hp : parse body = .ok resp) :
    RefreshOAuthToken (.ok hosts) host (.ok (200, body)) parse =
      .ok (resp.accessToken, setHost hosts host (mergeRefreshedToken hc resp)) ∧
    (setHost hosts host (mergeRefreshedToken hc resp)).lookup host =
      some (mergeRefreshedToken hc resp) ∧
    (mergeRefreshedToken hc resp).user = hc.user ∧
    (mergeRefreshedToken hc resp).clientID = hc.clientID ∧
    (mergeRefreshedToken hc resp).redirectURI = hc.redirectURI ∧
    (mergeRefreshedToken hc resp).oauthScopes = hc.oauthScopes ∧
    (mergeRefreshedToken hc resp).authMethod = hc.authMethod ∧
    (mergeRefreshedToken hc resp).protocol = hc.protocol ∧
    (mergeRefreshedToken hc resp).apiHost = hc.apiHost ∧
    (mergeRefreshedToken hc resp).token = resp.accessToken ∧
    (mergeRefreshedToken hc resp).refreshToken = resp.refreshToken ∧
    (mergeRefreshedToken hc resp).tokenCreatedAt = resp.createdAt ∧
    (mergeRefreshedToken hc resp).tokenExpiresAt = resp.createdAt + resp.expiresIn := by
  refine ⟨?_, lookup_setHost hosts host (mergeRefreshedToken hc resp), ?_, ?_, ?_, ?_, ?_, ?_, ?_, ?_, ?_, ?_, ?_⟩ <;>
    simp [RefreshOAuthToken, mergeRefreshedToken, hlk, hrt, hp]

/-- Witness for C7 at a concrete oauth record and a concrete 200 response. -/
theorem refresh_merge_preserves_non_token_fields_witness :
    (([("gitlab.test.local", sampleOAuthRecord)] : HostsConfig).lookup "gitlab.test.local" =
       some sampleOAuthRecord ∧
     sampleOAuthRecord.refreshToken ≠ "" ∧
     (fun (_ : String) => (.ok sampleTokenResponse : Except String OAuthTokenResponse)) "respbody" =
       .ok sampleTokenResponse) ∧
    (RefreshOAuthToken (.ok [("gitlab.test.local", sampleOAuthRecord)]) "gitlab.test.local"
        (.ok (200, "respbody")) (fun _ => .ok sampleTokenResponse) =
      .ok (sampleTokenResponse.accessToken,
           setHost [("gitlab.test.local", sampleOAuthRecord)] "gitlab.test.local"
             (mergeRefreshedToken sampleOAuthRecord sampleTokenResponse)) ∧
     (setHost [("gitlab.test.local", sampleOAuthRecord)] "gitlab.test.local"
         (mergeRefreshedToken sampleOAuthRecord sampleTokenResponse)).lookup "gitlab.test.local" =
       some (mergeRefreshedToken sampleOAuthRecord sampleTokenResponse) ∧
     (mergeRefreshedToken sampleOAuthRecord sampleTokenResponse).user = sampleOAuthRecord.user ∧
     (mergeRefreshedToken sampleOAuthRecord sampleTokenResponse).clientID = sampleOAuthRecord.clientID ∧
     (mergeRefreshedToken sampleOAuthRecord sampleTokenResponse).redirectURI = sampleOAuthRecord.redirectURI ∧
     (mergeRefreshedToken sampleOAuthRecord sampleTokenResponse).oauthScopes = sampleOAuthRecord.oauthScopes ∧
     (mergeRefreshedToken sampleOAuthRecord sampleTokenResponse).authMethod = sampleOAuthRecord.authMethod ∧
     (mergeRefreshedToken sampleOAuthRecord sampleTokenResponse).protocol = sampleOAuthRecord.protocol ∧
     (mergeRefreshedToken sampleOAuthRecord sampleTokenResponse).apiHost = sampleOAuthRecord.apiHost ∧
     (mergeRefreshedToken sampleOAuthRecord sampleTokenResponse).token = sampleTokenResponse.accessToken ∧
     (mergeRefreshedToken sampleOAuthRecord sampleTokenResponse).refreshToken = sampleTokenResponse.refreshToken ∧
     (mergeRefreshedToken sampleOAuthRecord sampleTokenResponse).tokenCreatedAt = sampleTokenResponse.createdAt ∧
     (mergeRefreshedToken sampleOAuthRecord sampleTokenResponse).tokenExpiresAt =
       sampleTokenResponse.createdAt + sampleTokenResponse.expiresIn) :=
  ⟨⟨by decide, by decide, rfl⟩,
   refresh_merge_preserves_non_token_fields [("gitlab.test.local", sampleOAuthRecord)]
     "gitlab.test.local" sampleOAuthRecord (fun _ => .ok sampleTokenResponse) "respbody"
     sampleTokenResponse (by decide) (by decide) rfl⟩

/-- Field lookup distributes over concatenated JSON object segments. -/
theorem lookup_append (xs ys : JObject) (k : String) :
    (xs ++ ys).lookup k = ((xs.lookup k).or (ys.lookup k)) := by
  induction xs with
  | nil => simp [List.lookup]
  | cons p rest ih =>
    obtain ⟨k2, v⟩ := p
    by_cases h : (k == k2) = true <;> simp [List.lookup, h, ih]

/-- Looking up an omitempty string field under its own key. -/
theorem lookup_optStr_self (k v : String) :
    (optStrField k v).lookup k = if v = "" then none else some (JValue.str v) := by
  by_cases h : v = "" <;> simp [optStrField, h, List.lookup]

/-- Looking up an omitempty integer field under its own key. -/
theorem lookup_optInt_self (k : String) (v : Int) :
    (optIntField k v).lookup k = if v = 0 then none else some (JValue.num v) := by
  by_cases h : v = 0 <;> simp [optIntField, h, List.lookup]

/-- An omitempty string field is invisible under any other key. -/
theorem lookup_optStr_ne (k k2 v : String) (h : (k2 == k) = false) :
    (optStrField k v).lookup k2 = none := by
  by_cases hv : v = "" <;> simp [optStrField, hv, List.lookup, h]

/-- An omitempty integer field is invisible under any other key. -/
theorem lookup_optInt_ne (k k2 : String) (v : Int) (h : (k2 == k) = false) :
    (optIntField k v).lookup k2 = none := by
  by_cases hv : v = 0 <;> simp [optIntField, hv, List.lookup, h]

/-- Deserializing a serialized record restores every field, absent omitempty
fields coming back as their zero values. -/
theorem ofJSON_toJSON (hc : HostConfig) : HostConfig.ofJSON hc.toJSON = hc := by
  obtain ⟨t, u, pr, ah, am, ci, ru, rt, te, tc, sc⟩ := hc
  simp [HostConfig.toJSON, HostConfig.ofJSON, lookupStr, lookupInt,
    lookup_append, lookup_optStr_self, lookup_optInt_self, lookup_optStr_ne, lookup_optInt_ne,
    List.lookup]
  constructor
  · split <;> simp_all
  constructor
  · split <;> simp_all
  constructor
  · split <;> simp_all
  constructor
  · split <;> simp_all
  constructor
  · split <;> simp_all
  constructor
  · split <;> simp_all
  constructor
  · split <;> simp_all
  constructor
  · split <;> simp_all
  constructor
  · split <;> simp_all
  · split <;> simp_all

/-- C8: writing any hosts map with the credential store and reloading it
reproduces every field of every record, including zero-valued expiry fields
of static-token records: load after save is the identity. -/
theorem hosts_save_load_roundtrip (hosts : HostsConfig) :
    LoadHosts (SaveHosts hosts) = hosts := by
  induction hosts with
  | nil => rfl
  | cons p rest ih =>
    obtain ⟨k, hc⟩ := p
    simp [SaveHosts, LoadHosts] at ih ⊢
    exact ⟨ofJSON_toJSON hc, ih⟩
